import Mathlib

/-!
Verification of the evolverx repository (an adaptive function-evolution
engine for Python).  The definitions below are a shallow embedding of the
source files `src/evolverx/telemetry.py`, `src/evolverx/types.py`,
`src/evolverx/evolving.py`, `src/evolverx/sandbox.py` and
`src/evolverx/persist.py`.  External collaborators (the LLM oracle,
`difflib` rendering and `json.dumps` serialisation, the operating system's
process machinery and file system) are modelled as parameters or as small
state types, exactly at the interfaces the source uses.
-/

set_option autoImplicit false

namespace Evolverx

/-! ### Attempt ledger (`telemetry.py`)

The source keeps a process-wide `defaultdict(int)` keyed by
`(module, func)`.  We model it as a total function from keys to counts,
with the default value `0` built in, exactly as `defaultdict(int)` behaves.
-/

/-- Per-function failure table: `_failures` in `telemetry.py`, a
`defaultdict(int)` keyed by `(module, func)`. -/
def Failures : Type := String × String → Nat

/-- Fresh `_failures` table: every key reads as `0` (a `defaultdict(int)`
with no entries). -/
def emptyFailures : Failures := fun _ => 0

/-- Dictionary store `_failures[key] = n`. -/
def setCount (s : Failures) (module func : String) (n : Nat) : Failures :=
  fun k => if k = (module, func) then n else s k

/-- `telemetry.get_failures`: `_failures.get((module, func), 0)`. -/
def get_failures (s : Failures) (module func : String) : Nat :=
  s (module, func)

/-- `telemetry.record_failure`: increments `_failures[(module, func)]` and
returns the updated table together with the new count (the Python function
mutates the global table and returns the count). -/
def record_failure (s : Failures) (module func : String) : Failures × Nat :=
  let n := s (module, func) + 1
  (setCount s module func n, n)

/-- `telemetry.reset_failures`: `_failures[(module, func)] = 0`. -/
def reset_failures (s : Failures) (module func : String) : Failures :=
  setCount s module func 0

/-! ### Configuration (`types.py`)

`EvolverxConfig` is a frozen-in-practice dataclass.  Only the fields the
orchestration logic reads are modelled; the presentation-only fields
(`persist_mode`, `max_body_lines`, `network_allowlist`, `cache_dir`,
`timeout_seconds`) do not influence any claim under scrutiny and are
omitted (the sandbox timeout is modelled behaviourally in the sandbox
section). -/

/-- Configuration fields of `EvolverxConfig` read by `_evolve` and
`evolving.wrapper`. -/
structure EvolverxConfig where
  allowImports : List String
  autoResynthesizeOnAnyError : Bool
  maxAttempts : Nat

/-- The default `allow_imports` tuple of `EvolverxConfig`. -/
def defaultAllowImports : List String :=
  ["json", "re", "math", "datetime", "typing", "time", "requests"]

/-! ### Import validation (`evolving._validate_imports`)

The Python code parses the wrapped candidate and walks the AST; only
`ast.Import` and `ast.ImportFrom` nodes contribute module names.  We embed
the import statements of the parsed candidate as a list and transcribe the
collection and rejection logic verbatim. -/

/-- `name.split(".")[0]`: the top-level root of a dotted module name. -/
def rootOf (name : String) : String :=
  ⟨name.data.takeWhile (fun c => !(c = '.'))⟩

/-- Import statements of a parsed candidate, as `ast.walk` reports them:
`imp names` is `import n1, n2, ...` (each `nᵢ` possibly dotted);
`impFrom mod names` is `from mod import n1, n2, ...` where `mod` is `none`
for a relative import (`ast`'s `node.module is None`). -/
inductive PyStmt where
  | imp (names : List String)
  | impFrom (module : Option String) (names : List String)

/-- The `mods` list `_validate_imports` builds for one AST node:
for `ImportFrom`, the root of `node.module` (when present) followed by the
root of every `alias.name`; for `Import`, the root of every `alias.name`. -/
def modsOf : PyStmt → List String
  | .imp names => names.map rootOf
  | .impFrom m names =>
      (match m with
       | some mm => [rootOf mm]
       | none => []) ++ names.map rootOf

/-- The first module of `mods` with `m not in allow`, if any (the loop in
`_validate_imports` raises at the first such module). -/
def firstDisallowed (mods allow : List String) : Option String :=
  match mods with
  | [] => none
  | m :: rest => if allow.contains m then firstDisallowed rest allow else some m

/-- `evolving._validate_imports`: walks the statements, and raises
`RuntimeError(f"Disallowed import: {m}")` at the first module whose
top-level root is not in the allowlist. -/
def validate_imports (stmts : List PyStmt) (allow : List String) :
    Except String Unit :=
  match stmts with
  | [] => .ok ()
  | st :: rest =>
      match firstDisallowed (modsOf st) allow with
      | some m => .error ("Disallowed import: " ++ m)
      | none => validate_imports rest allow

/-! ### Isolated execution sandbox (`sandbox.py`)

`exec_in_sandbox` spawns a fresh process running `_sandbox_target`, joins
it with a timeout, and inspects the single-message queue.  The child's
intrinsic behaviour (what `_runner` would do with the candidate) is the
only free input; everything downstream of it is transcribed from the
source. -/

/-- Behaviour of `_runner` inside the spawned child process: it returns a
value, raises some exception (whose `repr` is the carried text), runs past
the wall-clock deadline, or the process dies before `q.put` executes. -/
inductive RunnerBehavior (V : Type) where
  | returns (v : V)
  | raisesExc (desc : String)
  | runsPastDeadline
  | crashes

/-- Classified sandbox failures, one per `SandboxError` raise site in
`exec_in_sandbox`: `SandboxError("Timeout")`,
`SandboxError("Sandbox process exited without result")`, and
`SandboxError(payload)` for a classified in-process exception. -/
inductive SandboxError where
  | timeout
  | exitedWithoutResult
  | classified (payload : String)
deriving DecidableEq

/-- `sandbox._sandbox_target`: wraps `_runner` in `try/except` and puts the
single message `("ok", res)` or `("err", repr(e))` on the queue; `none`
models a child that produced no message (crash, or still running). -/
def sandbox_target {V : Type} : RunnerBehavior V → Option (Except String V)
  | .returns v => some (.ok v)
  | .raisesExc d => some (.error d)
  | .runsPastDeadline => none
  | .crashes => none

/-- Whether `p.is_alive()` holds after `p.join(timeout)`: only a child that
runs past the deadline is still alive. -/
def stillAliveAfterJoin {V : Type} : RunnerBehavior V → Bool
  | .runsPastDeadline => true
  | _ => false

/-- `sandbox.exec_in_sandbox`: join with timeout, terminate and report
`Timeout` if still alive, report `Sandbox process exited without result` on
an empty queue, otherwise unpack the single `(status, payload)` message. -/
def exec_in_sandbox {V : Type} (b : RunnerBehavior V) : Except SandboxError V :=
  if stillAliveAfterJoin b then .error .timeout
  else
    match sandbox_target b with
    | none => .error .exitedWithoutResult
    | some (.ok v) => .ok v
    | some (.error d) => .error (.classified d)

/-! ### The evolution orchestrator (`evolving.py`)

`_evolve` is the recursive control loop.  Its per-round interaction with
the LLM oracle is a black box (spec section 1), so one evolution round's
candidate — after normalisation, import auto-insertion, wrapping and
(repaired) parsing — is abstracted as a function of the attempt number:
either parsing failed even after the one repair pass, or it produced a
parsed candidate whose import statements and body are known, together with
the behaviour that candidate exhibits inside the sandbox.  Everything the
orchestrator itself does with that data (budget checks, import
validation, sandbox dispatch, recursion, installation, ledger reset) is
transcribed from `_evolve` lines 64-149. -/

/-- A Python code object, reduced to the two features `evolving.py`
manipulates: the textual parameter list baked in by `_wrap_as_function`
and the executable body. -/
structure CodeObj where
  params : String
  body : String
deriving DecidableEq

/-- A Python function object as `_evolve` sees it: `__module__`,
`__name__`, `__doc__`, and the `__code__` slot (the only one the commit
step reassigns). -/
structure PyFunction where
  module : String
  name : String
  doc : Option String
  code : CodeObj
deriving DecidableEq

/-- `_wrap_as_function` followed by `compile`/`exec`/`ns[func.__name__]`:
the candidate code object carries the wrapped source's parameter list —
which `_wrap_as_function` copies from `inspect.signature(func)`, i.e. from
the function's current code object — and the generated body. -/
def wrapCompile (func : PyFunction) (body : String) : CodeObj :=
  ⟨func.code.params, body⟩

/-- Python exception values that flow through `wrapper`/`_evolve` as the
current triggering error `err`:  `NotImplementedError`, a
`SyntaxError`/`IndentationError` from the second parse attempt, the
`RuntimeError` raised by `_validate_imports`, a `SandboxError` raised by
`exec_in_sandbox`, or any other exception from the original call. -/
inductive PyErr where
  | notImplemented
  | parseFailure
  | runtimeError (msg : String)
  | sandboxError (e : SandboxError)
  | other (name : String)
deriving DecidableEq

/-- Whether an exception is the sandbox's own classification type
(`isinstance(e, SandboxError)`), i.e. an internal classification rather
than a failure kind the unwrapped function could have produced. -/
def PyErr.isSandboxErr : PyErr → Bool
  | .sandboxError _ => true
  | _ => false

/-- What one generation round produced, as a function of the attempt
number: `parseFailTwice` if the candidate failed `ast.parse` even after
the indentation repair pass, else the parsed candidate's import
statements, its body text, and the behaviour `_runner` would exhibit for
it in the sandbox. -/
inductive RoundOutcome (V : Type) where
  | parseFailTwice
  | parsed (stmts : List PyStmt) (body : String) (run : RunnerBehavior V)

/-- Observable events of the evolution loop, tagged with the attempt
number: a generation round started (`gen`), the candidate failed to parse
twice (`parseFailed`), the candidate was rejected by `_validate_imports`
(`importRejected`), the candidate passed syntax and import validation
(`validated`), the candidate was handed to `exec_in_sandbox`
(`sandboxRun`). -/
inductive Ev where
  | gen (attempt : Nat)
  | parseFailed (attempt : Nat)
  | importRejected (attempt : Nat) (msg : String)
  | validated (attempt : Nat)
  | sandboxRun (attempt : Nat)
deriving DecidableEq

/-- Number of generation rounds recorded in a trace. -/
def genCount (t : List Ev) : Nat :=
  t.countP fun e =>
    match e with
    | .gen _ => true
    | _ => false

/-- Number of sandbox executions recorded in a trace. -/
def sandboxCount (t : List Ev) : Nat :=
  t.countP fun e =>
    match e with
    | .sandboxRun _ => true
    | _ => false

/-- How one call into the wrapper ends: a value is returned to the caller,
or an exception propagates to the caller. -/
inductive EvOutcome (V : Type) where
  | ok (v : V)
  | raised (e : PyErr)
deriving DecidableEq

/-- Result of running `_evolve` (or the whole wrapper): the outcome seen
by the original caller, the function object afterwards, the failure table
afterwards, and the trace of round events. -/
structure EvolveResult (V : Type) where
  outcome : EvOutcome V
  func : PyFunction
  failures : Failures
  trace : List Ev

/-- `evolving._evolve`.  The `fuel` argument only bounds the recursion
depth for Lean's termination checker; the Python recursion terminates
because `record_failure` strictly increases the counter and the budget
check stops it, so `cfg.maxAttempts + 1` fuel always suffices (see
`evolveRun`).  Transcription of the branches, in source order:
`record_failure` then the `attempts > cfg.max_attempts` re-raise; the
candidate failing to parse twice recurses with the parse error as the new
triggering error; `_validate_imports` raising propagates immediately; a
sandbox exception re-raises it when `get_failures >= cfg.max_attempts`
and otherwise recurses with it; sandbox success writes the cache
(modelled separately in the persistence section), installs the candidate
code object, resets the ledger and returns the sandbox value. -/
def evolve {V : Type} :
    Nat → EvolverxConfig → (Nat → RoundOutcome V) → PyFunction → Failures →
    PyErr → EvolveResult V
  | 0, _, _, func, s, err => ⟨.raised err, func, s, []⟩
  | fuel + 1, cfg, rounds, func, s, err =>
    let recorded := record_failure s func.module func.name
    let s1 := recorded.1
    let attempts := recorded.2
    if attempts > cfg.maxAttempts then ⟨.raised err, func, s1, []⟩
    else
      match rounds attempts with
      | .parseFailTwice =>
          let r := evolve fuel cfg rounds func s1 .parseFailure
          ⟨r.outcome, r.func, r.failures,
            .gen attempts :: .parseFailed attempts :: r.trace⟩
      | .parsed stmts body run =>
          match validate_imports stmts cfg.allowImports with
          | .error msg =>
              ⟨.raised (.runtimeError msg), func, s1,
                [.gen attempts, .importRejected attempts msg]⟩
          | .ok _ =>
              match exec_in_sandbox run with
              | .error se =>
                  if get_failures s1 func.module func.name ≥ cfg.maxAttempts
                  then
                    ⟨.raised (.sandboxError se), func, s1,
                      [.gen attempts, .validated attempts,
                        .sandboxRun attempts]⟩
                  else
                    let r :=
                      evolve fuel cfg rounds func s1 (.sandboxError se)
                    ⟨r.outcome, r.func, r.failures,
                      .gen attempts :: .validated attempts ::
                        .sandboxRun attempts :: r.trace⟩
              | .ok v =>
                  let func' := { func with code := wrapCompile func body }
                  let s2 := reset_failures s1 func.module func.name
                  ⟨.ok v, func', s2,
                    [.gen attempts, .validated attempts,
                      .sandboxRun attempts]⟩

/-- `_evolve` with adequate fuel: at entry the counter for the key is some
`n`, each round moves it to `n + 1`, and the top-of-call check stops the
recursion as soon as it exceeds `cfg.max_attempts`, so the depth never
exceeds `cfg.maxAttempts + 1`. -/
def evolveRun {V : Type} (cfg : EvolverxConfig) (rounds : Nat → RoundOutcome V)
    (func : PyFunction) (s : Failures) (err : PyErr) : EvolveResult V :=
  evolve (cfg.maxAttempts + 1) cfg rounds func s err

/-- Behaviour of the current implementation on the original call: it
returns normally or raises. -/
inductive CallBehavior (V : Type) where
  | returns (v : V)
  | raises (e : PyErr)

/-- `evolving.wrapper`: run the current implementation; on
`NotImplementedError` evolve; on any other exception evolve only when
`auto_resynthesize_on_any_error` is set, else re-raise. -/
def wrapperCall {V : Type} (cfg : EvolverxConfig)
    (rounds : Nat → RoundOutcome V) (func : PyFunction) (s : Failures)
    (behavior : CallBehavior V) : EvolveResult V :=
  match behavior with
  | .returns v => ⟨.ok v, func, s, []⟩
  | .raises e =>
      match e with
      | .notImplemented => evolveRun cfg rounds func s .notImplemented
      | e' =>
          if cfg.autoResynthesizeOnAnyError then evolveRun cfg rounds func s e'
          else ⟨.raised e', func, s, []⟩

/-! ### Cache and diff store (`persist.py`)

File-system state is a partial map from paths (component lists, as
`pathlib.Path` objects are) to text contents; `Path.write_text` with utf-8
round-trips text exactly on this model.  `difflib.unified_diff`,
`difflib.HtmlDiff` and `json.dumps` are standard-library presentation
collaborators (out of scope per spec section 1) and enter as opaque
renderer parameters; everything `persist.py` itself computes — paths,
newline normalisation, the decorator-block extraction feeding the diff,
the markdown document, the metadata record — is transcribed. -/

/-- A file path as a list of components, mirroring `pathlib.Path`
(`base / "diffs" / name` is `base ++ ["diffs", name]`). -/
abbrev FsPath : Type := List String

/-- File-system contents: path to text, `none` when the file is absent. -/
abbrev FS : Type := FsPath → Option String

/-- The character substitution performed by `module.replace(".", "_")`. -/
def dotToUnderscore (c : Char) : Char :=
  if c = '.' then '_' else c

/-- `module.replace(".", "_")` from `persist.cache_path` and friends. -/
def safe_module (module : String) : String :=
  ⟨module.data.map dotToUnderscore⟩

/-- The file name `f"{safe_module}__{func}.py"`. -/
def cacheFileName (module func : String) : String :=
  ⟨(safe_module module).data ++ '_' :: '_' :: func.data ++ ['.', 'p', 'y']⟩

/-- `persist.cache_path`: `base / f"{safe_module}__{func}.py"`. -/
def cache_path (module func : String) (base : FsPath) : FsPath :=
  base ++ [cacheFileName module func]

/-- `persist._original_path`: `base / "originals" / f"{safe_module}__{func}.py"`. -/
def original_path (module func : String) (base : FsPath) : FsPath :=
  base ++ ["originals", cacheFileName module func]

/-- `persist._diff_path`: `base / "diffs" / f"{safe_module}__{func}.diff"`. -/
def diff_path (module func : String) (base : FsPath) : FsPath :=
  base ++ ["diffs", ⟨(safe_module module).data ++ '_' :: '_' :: func.data ++
    ['.', 'd', 'i', 'f', 'f']⟩]

/-- `persist._diff_md_path`: `base / "diffs" / f"{safe_module}__{func}.md"`. -/
def diff_md_path (module func : String) (base : FsPath) : FsPath :=
  base ++ ["diffs", ⟨(safe_module module).data ++ '_' :: '_' :: func.data ++
    ['.', 'm', 'd']⟩]

/-- `persist._diff_html_path`: `base / "diffs" / f"{safe_module}__{func}.html"`. -/
def diff_html_path (module func : String) (base : FsPath) : FsPath :=
  base ++ ["diffs", ⟨(safe_module module).data ++ '_' :: '_' :: func.data ++
    ['.', 'h', 't', 'm', 'l']⟩]

/-- `persist._meta_path`: `base / "diffs" / f"{safe_module}__{func}.meta.json"`. -/
def meta_path (module func : String) (base : FsPath) : FsPath :=
  base ++ ["diffs", ⟨(safe_module module).data ++ '_' :: '_' :: func.data ++
    ['.', 'm', 'e', 't', 'a', '.', 'j', 's', 'o', 'n']⟩]

/-- `.replace("\r\n", "\n").replace("\r", "\n")`: every CRLF and every
lone CR becomes LF. -/
def normNL : List Char → List Char
  | [] => []
  | '\r' :: '\n' :: rest => '\n' :: normNL rest
  | '\r' :: rest => '\n' :: normNL rest
  | c :: rest => c :: normNL rest

/-- Line split on LF.  `persist.py` uses `splitlines(keepends=True)`; we
carry lines without their terminators (and a final empty line when the
text ends in LF), which is an equivalent representation at the renderer
interface since the terminator after normalisation is always LF. -/
def splitNL : List Char → List (List Char)
  | [] => [[]]
  | c :: rest =>
      match splitNL rest with
      | [] => [[c]]
      | l :: ls => if c = '\n' then [] :: l :: ls else (c :: l) :: ls

/-- The lines of a text after newline normalisation, as `String`s. -/
def linesOf (src : String) : List String :=
  (splitNL (normNL src.data)).map fun l => ⟨l⟩

/-- Python `str.isspace` characters relevant to `lstrip()`. -/
def isPySpace (c : Char) : Bool :=
  c = ' ' || c = '\t' || c = '\n' || c = '\r' || c = '\x0b' || c = '\x0c'

/-- `line.lstrip()`. -/
def pyLstrip (l : List Char) : List Char :=
  l.dropWhile isPySpace

/-- `ln.lstrip().startswith("def ")`. -/
def isDefLine (l : String) : Bool :=
  List.isPrefixOf ['d', 'e', 'f', ' '] (pyLstrip l.data)

/-- `ln.lstrip().startswith("@")`. -/
def isDecoratorLine (l : String) : Bool :=
  List.isPrefixOf ['@'] (pyLstrip l.data)

/-- `persist.write_cache`'s inner `_extract_decorator_block`: normalise
newlines, split into lines, locate the first `def` line, and collect the
contiguous block of `@`-lines directly above it (in file order). -/
def extract_decorator_block (src : String) : List String :=
  let ls := linesOf src
  match ls.findIdx? isDefLine with
  | none => []
  | some defIdx => ((ls.take defIdx).reverse.takeWhile isDecoratorLine).reverse

/-- `"\n".join(...)`. -/
def joinNL : List String → String
  | [] => ""
  | [s] => s
  | s :: rest => s ++ "\n" ++ joinNL rest

/-- `str(p)` for a `pathlib.Path`: components joined by the separator. -/
def pathStr : FsPath → String
  | [] => ""
  | [s] => s
  | s :: rest => s ++ "/" ++ pathStr rest

/-- The dictionary `meta` assembled by `write_cache` before
`json.dumps`. -/
structure MetaRecord where
  module : String
  func : String
  safeModule : String
  cached : String
  original : String
  diff : String
  diffMd : String
  diffHtml : String
  generatedUtc : String
deriving DecidableEq

/-- The standard-library presentation collaborators `write_cache` calls:
`difflib.unified_diff(before, after, fromfile=..., tofile=...,
fromfiledate=ts, tofiledate=ts, n=3)` joined to one string;
`difflib.HtmlDiff(...).make_file(...)`, whose occasional failure (`none`)
the source swallows, skipping the html artifact; and
`json.dumps(meta, indent=2)`. -/
structure DiffRenderers where
  unifiedDiff : List String → List String → String → String → String → String
  htmlDiff : List String → List String → String → String → Option String
  jsonDumps : MetaRecord → String

/-- The markdown document `write_cache` builds around the diff text:
`"\n".join([f"# evolverx diff for ...", "", f"_Generated: {ts}_", "",
"```diff", diff_txt, "```", ""])`. -/
def mdDoc (module func ts diffTxt : String) : String :=
  joinNL ["# evolverx diff for `" ++ module ++ "." ++ func ++ "`", "",
    "_Generated: " ++ ts ++ "_", "", "```diff", diffTxt, "```", ""]

/-- The sequence of `(path, content)` writes `write_cache` performs, in
source order: the candidate file always; then, when an original snapshot
is supplied, the snapshot, the unified diff, the markdown diff, the html
diff (only when `HtmlDiff` succeeded), and the metadata record. -/
def cacheWrites (R : DiffRenderers) (module func fn_src : String)
    (base : FsPath) (original_src : Option String) (ts : String) :
    List (FsPath × String) :=
  (cache_path module func base, fn_src) ::
    match original_src with
    | none => []
    | some orig =>
        let beforeLines := linesOf orig
        let decor := extract_decorator_block orig
        let afterBodyLines := linesOf fn_src
        let afterLines := decor ++ afterBodyLines
        let diffTxt := R.unifiedDiff beforeLines afterLines module func ts
        [(original_path module func base, orig),
         (diff_path module func base, diffTxt),
         (diff_md_path module func base, mdDoc module func ts diffTxt)] ++
        (match R.htmlDiff beforeLines afterLines module func with
         | some html => [(diff_html_path module func base, html)]
         | none => []) ++
        [(meta_path module func base,
          R.jsonDumps
            ⟨module, func, safe_module module,
             pathStr (cache_path module func base),
             pathStr (original_path module func base),
             pathStr (diff_path module func base),
             pathStr (diff_md_path module func base),
             pathStr (diff_html_path module func base), ts⟩)]

/-- Apply a write sequence to the file system, earlier writes first (a
later write to the same path wins, as on a real file system). -/
def applyWrites : List (FsPath × String) → FS → FS
  | [], fs => fs
  | (p, c) :: rest, fs =>
      applyWrites rest (fun q => if q = p then some c else fs q)

/-- `persist.write_cache`: perform the artifact writes on the file
system.  `ts` is the `datetime.utcnow()` reading taken during the save. -/
def write_cache (R : DiffRenderers) (module func fn_src : String)
    (base : FsPath) (original_src : Option String) (ts : String)
    (fs : FS) : FS :=
  applyWrites (cacheWrites R module func fn_src base original_src ts) fs

/-- The content the final write to a path in a write sequence carries, if
any: a specification device for `applyWrites`. -/
def lastWrite : List (FsPath × String) → FsPath → Option String
  | [], _ => none
  | (q, c) :: rest, p =>
      match lastWrite rest p with
      | some c' => some c'
      | none => if p = q then some c else none

/-- Whether a Python identifier-ish string contains no underscore; on such
namespaces and names the identity-to-filename mapping is injective. -/
def noUnderscore (s : String) : Bool :=
  s.data.all fun c => !(c = '_')

/-- The source text `persist.load_from_cache` reads back
(`p.read_text(encoding="utf-8")` at `cache_path`), `none` when the cache
file does not exist.  The Python function then compiles this text and
installs it, returning a success flag; the claims under study concern the
text read. -/
def load_from_cache (module func : String) (base : FsPath) (fs : FS) :
    Option String :=
  fs (cache_path module func base)

/-! ## Theorems -/

/-! ### Helper lemmas -/

theorem firstDisallowed_eq_none_iff (mods allow : List String) :
    firstDisallowed mods allow = none ↔ ∀ m ∈ mods, m ∈ allow := by
  induction mods with
  | nil => simp [firstDisallowed]
  | cons m rest ih =>
      by_cases hm : m ∈ allow <;> simp [firstDisallowed, hm, ih]

theorem validate_imports_ok_iff (stmts : List PyStmt) (allow : List String) :
    validate_imports stmts allow = .ok () ↔
      ∀ st ∈ stmts, ∀ m ∈ modsOf st, m ∈ allow := by
  induction stmts with
  | nil => simp [validate_imports]
  | cons st rest ih =>
      cases hfd : firstDisallowed (modsOf st) allow with
      | some m =>
          simp only [validate_imports, hfd]
          constructor
          · intro h
            cases h
          · intro h
            have := (firstDisallowed_eq_none_iff (modsOf st) allow).mpr
              (h st (by simp))
            rw [this] at hfd
            cases hfd
      | none =>
          simp only [validate_imports, hfd, ih]
          constructor
          · intro h st' hst' m hm
            rcases List.mem_cons.mp hst' with rfl | hst'
            · exact (firstDisallowed_eq_none_iff (modsOf st') allow).mp hfd m hm
            · exact h st' hst' m hm
          · intro h st' hst' m hm
            exact h st' (List.mem_cons_of_mem _ hst') m hm

theorem get_failures_setCount (s : Failures) (m f m' f' : String) (n : Nat) :
    get_failures (setCount s m f n) m' f' =
      if (m', f') = (m, f) then n else get_failures s m' f' := by
  simp [get_failures, setCount]

theorem evolve_fuel_zero {V : Type} (cfg : EvolverxConfig)
    (rounds : Nat → RoundOutcome V) (func : PyFunction) (s : Failures)
    (err : PyErr) : evolve 0 cfg rounds func s err = ⟨.raised err, func, s, []⟩ :=
  rfl

theorem evolve_budget_exceeded {V : Type} (n : Nat) (cfg : EvolverxConfig)
    (rounds : Nat → RoundOutcome V) (func : PyFunction) (s : Failures)
    (err : PyErr) (h : cfg.maxAttempts < get_failures s func.module func.name + 1) :
    evolve (n + 1) cfg rounds func s err =
      ⟨.raised err, func,
        setCount s func.module func.name
          (get_failures s func.module func.name + 1), []⟩ := by
  simp only [evolve, record_failure, get_failures] at *
  rw [if_pos h]

theorem evolve_parse_fail {V : Type} (n : Nat) (cfg : EvolverxConfig)
    (rounds : Nat → RoundOutcome V) (func : PyFunction) (s : Failures)
    (err : PyErr) (h : ¬ cfg.maxAttempts < get_failures s func.module func.name + 1)
    (hr : rounds (get_failures s func.module func.name + 1) = .parseFailTwice) :
    evolve (n + 1) cfg rounds func s err =
      (fun r => ⟨r.outcome, r.func, r.failures,
          .gen (get_failures s func.module func.name + 1) ::
            .parseFailed (get_failures s func.module func.name + 1) :: r.trace⟩ :
          EvolveResult V → EvolveResult V)
        (evolve n cfg rounds func
          (setCount s func.module func.name
            (get_failures s func.module func.name + 1)) .parseFailure) := by
  simp only [evolve, record_failure, get_failures] at *
  rw [if_neg h, hr]

theorem evolve_import_reject {V : Type} (n : Nat) (cfg : EvolverxConfig)
    (rounds : Nat → RoundOutcome V) (func : PyFunction) (s : Failures)
    (err : PyErr) (stmts : List PyStmt) (body : String)
    (run : RunnerBehavior V) (msg : String)
    (h : ¬ cfg.maxAttempts < get_failures s func.module func.name + 1)
    (hr : rounds (get_failures s func.module func.name + 1) =
      .parsed stmts body run)
    (hv : validate_imports stmts cfg.allowImports = .error msg) :
    evolve (n + 1) cfg rounds func s err =
      ⟨.raised (.runtimeError msg), func,
        setCount s func.module func.name
          (get_failures s func.module func.name + 1),
        [.gen (get_failures s func.module func.name + 1),
         .importRejected (get_failures s func.module func.name + 1) msg]⟩ := by
  simp only [evolve, record_failure, get_failures] at *
  rw [if_neg h, hr]
  simp only [hv]

theorem evolve_sandbox_fail_terminal {V : Type} (n : Nat)
    (cfg : EvolverxConfig) (rounds : Nat → RoundOutcome V)
    (func : PyFunction) (s : Failures) (err : PyErr) (stmts : List PyStmt)
    (body : String) (run : RunnerBehavior V) (se : SandboxError)
    (h : ¬ cfg.maxAttempts < get_failures s func.module func.name + 1)
    (hr : rounds (get_failures s func.module func.name + 1) =
      .parsed stmts body run)
    (hv : validate_imports stmts cfg.allowImports = .ok ())
    (he : exec_in_sandbox run = .error se)
    (hge : cfg.maxAttempts ≤ get_failures s func.module func.name + 1) :
    evolve (n + 1) cfg rounds func s err =
      ⟨.raised (.sandboxError se), func,
        setCount s func.module func.name
          (get_failures s func.module func.name + 1),
        [.gen (get_failures s func.module func.name + 1),
         .validated (get_failures s func.module func.name + 1),
         .sandboxRun (get_failures s func.module func.name + 1)]⟩ := by
  simp only [evolve, record_failure, get_failures] at *
  rw [if_neg h, hr]
  simp only [hv, he, setCount]
  rw [if_pos (by simpa using hge)]

theorem evolve_sandbox_fail_retry {V : Type} (n : Nat)
    (cfg : EvolverxConfig) (rounds : Nat → RoundOutcome V)
    (func : PyFunction) (s : Failures) (err : PyErr) (stmts : List PyStmt)
    (body : String) (run : RunnerBehavior V) (se : SandboxError)
    (h : ¬ cfg.maxAttempts < get_failures s func.module func.name + 1)
    (hr : rounds (get_failures s func.module func.name + 1) =
      .parsed stmts body run)
    (hv : validate_imports stmts cfg.allowImports = .ok ())
    (he : exec_in_sandbox run = .error se)
    (hlt : get_failures s func.module func.name + 1 < cfg.maxAttempts) :
    evolve (n + 1) cfg rounds func s err =
      (fun r => ⟨r.outcome, r.func, r.failures,
          .gen (get_failures s func.module func.name + 1) ::
            .validated (get_failures s func.module func.name + 1) ::
            .sandboxRun (get_failures s func.module func.name + 1) ::
            r.trace⟩ : EvolveResult V → EvolveResult V)
        (evolve n cfg rounds func
          (setCount s func.module func.name
            (get_failures s func.module func.name + 1))
          (.sandboxError se)) := by
  simp only [evolve, record_failure, get_failures] at *
  rw [if_neg h, hr]
  simp only [hv, he, setCount]
  rw [if_neg (by simpa using Nat.not_le_of_lt hlt)]

theorem evolve_commit {V : Type} (n : Nat) (cfg : EvolverxConfig)
    (rounds : Nat → RoundOutcome V) (func : PyFunction) (s : Failures)
    (err : PyErr) (stmts : List PyStmt) (body : String)
    (run : RunnerBehavior V) (v : V)
    (h : ¬ cfg.maxAttempts < get_failures s func.module func.name + 1)
    (hr : rounds (get_failures s func.module func.name + 1) =
      .parsed stmts body run)
    (hv : validate_imports stmts cfg.allowImports = .ok ())
    (he : exec_in_sandbox run = .ok v) :
    evolve (n + 1) cfg rounds func s err =
      ⟨.ok v, { func with code := wrapCompile func body },
        reset_failures
          (setCount s func.module func.name
            (get_failures s func.module func.name + 1))
          func.module func.name,
        [.gen (get_failures s func.module func.name + 1),
         .validated (get_failures s func.module func.name + 1),
         .sandboxRun (get_failures s func.module func.name + 1)]⟩ := by
  simp only [evolve, record_failure, get_failures] at *
  rw [if_neg h, hr]
  simp only [hv, he]

theorem get_failures_le_setCount_incr (s : Failures) (m f m' f' : String) :
    get_failures s m' f' ≤
      get_failures (setCount s m f (get_failures s m f + 1)) m' f' := by
  by_cases hef : (m', f') = (m, f)
  · simp only [get_failures, setCount, hef, if_pos]
    omega
  · simp [get_failures, setCount, hef]

/-- On every run of `_evolve` that ends with an exception propagating, the
failure counters never decrease: the only decrease anywhere in the loop is
the reset performed after a fully accepted candidate. -/
theorem evolve_raised_failures_mono {V : Type} :
    ∀ (fuel : Nat) (cfg : EvolverxConfig) (rounds : Nat → RoundOutcome V)
      (func : PyFunction) (s : Failures) (err : PyErr) (m' f' : String)
      (e : PyErr),
      (evolve fuel cfg rounds func s err).outcome = .raised e →
      get_failures s m' f' ≤
        get_failures (evolve fuel cfg rounds func s err).failures m' f' := by
  intro fuel
  induction fuel with
  | zero =>
      intro cfg rounds func s err m' f' e _
      rw [evolve_fuel_zero]
  | succ n ih =>
      intro cfg rounds func s err m' f' e hout
      by_cases hb : cfg.maxAttempts < get_failures s func.module func.name + 1
      · rw [evolve_budget_exceeded n cfg rounds func s err hb]
        exact get_failures_le_setCount_incr s func.module func.name m' f'
      · cases hr : rounds (get_failures s func.module func.name + 1) with
        | parseFailTwice =>
            rw [evolve_parse_fail n cfg rounds func s err hb hr] at hout ⊢
            exact le_trans
              (get_failures_le_setCount_incr s func.module func.name m' f')
              (ih cfg rounds func _ .parseFailure m' f' e hout)
        | parsed stmts body run =>
            cases hv : validate_imports stmts cfg.allowImports with
            | error msg =>
                rw [evolve_import_reject n cfg rounds func s err stmts body
                  run msg hb hr hv]
                exact get_failures_le_setCount_incr s func.module func.name
                  m' f'
            | ok u =>
                cases u
                cases he : exec_in_sandbox run with
                | error se =>
                    by_cases hge :
                      cfg.maxAttempts ≤ get_failures s func.module func.name + 1
                    · rw [evolve_sandbox_fail_terminal n cfg rounds func s err
                        stmts body run se hb hr hv he hge]
                      exact get_failures_le_setCount_incr s func.module
                        func.name m' f'
                    · rw [evolve_sandbox_fail_retry n cfg rounds func s err
                        stmts body run se hb hr hv he (by omega)] at hout ⊢
                      exact le_trans
                        (get_failures_le_setCount_incr s func.module func.name
                          m' f')
                        (ih cfg rounds func _ (.sandboxError se) m' f' e hout)
                | ok v =>
                    rw [evolve_commit n cfg rounds func s err stmts body run v
                      hb hr hv he] at hout
                    cases hout

/-- A run of `_evolve` in which every generated candidate parses, passes the
validation of imports, and fails in the sandbox: when the counter starts below
the budget, the run performs exactly `max_attempts - start` further
rounds (each with a generation, a validation and a sandbox execution) and
ends by re-raising the sandbox error of the final round, the round whose
attempt number is `max_attempts`. -/
theorem evolve_all_fail {V : Type} (cfg : EvolverxConfig)
    (rounds : Nat → RoundOutcome V) (func : PyFunction)
    (stmts : Nat → List PyStmt) (body : Nat → String)
    (run : Nat → RunnerBehavior V) (se : Nat → SandboxError)
    (hr : ∀ i, rounds i = .parsed (stmts i) (body i) (run i))
    (hv : ∀ i, validate_imports (stmts i) cfg.allowImports = .ok ())
    (he : ∀ i, exec_in_sandbox (run i) = .error (se i)) :
    ∀ (fuel : Nat) (s : Failures) (err : PyErr),
      get_failures s func.module func.name < cfg.maxAttempts →
      cfg.maxAttempts - get_failures s func.module func.name ≤ fuel →
      (evolve fuel cfg rounds func s err).outcome =
          .raised (.sandboxError (se cfg.maxAttempts))
      ∧ genCount (evolve fuel cfg rounds func s err).trace =
          cfg.maxAttempts - get_failures s func.module func.name
      ∧ sandboxCount (evolve fuel cfg rounds func s err).trace =
          cfg.maxAttempts - get_failures s func.module func.name := by
  intro fuel
  induction fuel with
  | zero =>
      intro s err hlt hfuel
      omega
  | succ n ih =>
      intro s err hlt hfuel
      have hb : ¬ cfg.maxAttempts < get_failures s func.module func.name + 1 :=
        by omega
      by_cases hterm :
        cfg.maxAttempts ≤ get_failures s func.module func.name + 1
      · rw [evolve_sandbox_fail_terminal n cfg rounds func s err _ _ _ _ hb
          (hr _) (hv _) (he _) hterm]
        have hmax : get_failures s func.module func.name + 1 =
            cfg.maxAttempts := by omega
        rw [hmax]
        refine ⟨rfl, ?_, ?_⟩ <;>
          simp [genCount, sandboxCount, List.countP_cons, List.countP_nil] <;>
          omega
      · rw [evolve_sandbox_fail_retry n cfg rounds func s err _ _ _ _ hb
          (hr _) (hv _) (he _) (by omega)]
        have hkey : get_failures
            (setCount s func.module func.name
              (get_failures s func.module func.name + 1))
            func.module func.name =
            get_failures s func.module func.name + 1 := by
          simp [get_failures, setCount]
        obtain ⟨h1, h2, h3⟩ := ih
          (setCount s func.module func.name
            (get_failures s func.module func.name + 1))
          (.sandboxError (se (get_failures s func.module func.name + 1)))
          (by omega) (by rw [hkey]; omega)
        rw [hkey] at h2 h3
        refine ⟨h1, ?_, ?_⟩
        · simp only [genCount] at h2 ⊢
          simp [List.countP_cons, h2]
          omega
        · simp only [sandboxCount] at h3 ⊢
          simp [List.countP_cons, h3]
          omega

/-! ### C4 — sandbox outcome trichotomy -/

/-- C4: every call of the sandbox executor produces exactly one of three
outcomes — a success value, a classified in-process exception carried as
text, or an infrastructure failure (timeout, or the child exiting without
sending its single message); in particular a child that dies before
sending yields the exited-without-result infrastructure error, and no
behaviour of the child is left without a reported outcome. -/
theorem sandbox_exactly_one_outcome :
    (∀ (V : Type) (v : V),
        exec_in_sandbox (RunnerBehavior.returns v) = Except.ok v)
    ∧ (∀ (V : Type) (d : String),
        exec_in_sandbox (RunnerBehavior.raisesExc d : RunnerBehavior V) =
          Except.error (SandboxError.classified d))
    ∧ (∀ (V : Type),
        exec_in_sandbox (RunnerBehavior.runsPastDeadline : RunnerBehavior V) =
          Except.error SandboxError.timeout)
    ∧ (∀ (V : Type),
        exec_in_sandbox (RunnerBehavior.crashes : RunnerBehavior V) =
          Except.error SandboxError.exitedWithoutResult)
    ∧ (∀ (V : Type) (b : RunnerBehavior V),
        (∃ v, exec_in_sandbox b = Except.ok v)
        ∨ (∃ d, b = RunnerBehavior.raisesExc d ∧
            exec_in_sandbox b = Except.error (SandboxError.classified d))
        ∨ exec_in_sandbox b = Except.error SandboxError.timeout
        ∨ exec_in_sandbox b = Except.error SandboxError.exitedWithoutResult) := by
  refine ⟨fun V v => rfl, fun V d => rfl, fun V => rfl, fun V => rfl,
    fun V b => ?_⟩
  cases b with
  | returns v => exact Or.inl ⟨v, rfl⟩
  | raisesExc d => exact Or.inr (Or.inl ⟨d, rfl, rfl⟩)
  | runsPastDeadline => exact Or.inr (Or.inr (Or.inl rfl))
  | crashes => exact Or.inr (Or.inr (Or.inr rfl))

/-! ### C1 — exactly `max_attempts` regeneration rounds -/

/-- C1: with `max_attempts = 3` and a fresh failure counter, a wrapped
call whose implementation raises the `NotImplementedError` trigger and
whose every regenerated candidate parses, passes validation, and fails in
the sandbox ends with an exception propagating after exactly 3
regeneration rounds — 3 generations and 3 sandbox executions, not 2 and
not 4. -/
theorem max_attempts_three_rounds_then_propagates {V : Type}
    (cfg : EvolverxConfig) (rounds : Nat → RoundOutcome V)
    (func : PyFunction) (s : Failures) (stmts : Nat → List PyStmt)
    (body : Nat → String) (run : Nat → RunnerBehavior V)
    (se : Nat → SandboxError) (h3 : cfg.maxAttempts = 3)
    (h0 : get_failures s func.module func.name = 0)
    (hr : ∀ i, rounds i = .parsed (stmts i) (body i) (run i))
    (hv : ∀ i, validate_imports (stmts i) cfg.allowImports = .ok ())
    (he : ∀ i, exec_in_sandbox (run i) = .error (se i)) :
    (wrapperCall cfg rounds func s (.raises .notImplemented)).outcome =
        .raised (.sandboxError (se 3))
    ∧ genCount
        (wrapperCall cfg rounds func s (.raises .notImplemented)).trace = 3
    ∧ sandboxCount
        (wrapperCall cfg rounds func s (.raises .notImplemented)).trace = 3 := by
  have h := evolve_all_fail cfg rounds func stmts body run se hr hv he
    (cfg.maxAttempts + 1) s .notImplemented (by omega) (by omega)
  simp only [wrapperCall, evolveRun]
  simpa [h0, h3] using h

/-- Witness for C1 at a concrete configuration: every round generates a
candidate with no imports whose sandbox run raises, and the wrapper
propagates the third round's sandbox error. -/
theorem max_attempts_three_rounds_then_propagates_witness :
    (wrapperCall (V := Nat) ⟨defaultAllowImports, true, 3⟩
        (fun _ => .parsed [] "return 1" (.raisesExc "ValueError(1)"))
        ⟨"m", "f", none, ⟨"x", "b"⟩⟩ emptyFailures
        (.raises .notImplemented)).outcome =
        .raised (.sandboxError (.classified "ValueError(1)"))
    ∧ genCount
        (wrapperCall (V := Nat) ⟨defaultAllowImports, true, 3⟩
          (fun _ => .parsed [] "return 1" (.raisesExc "ValueError(1)"))
          ⟨"m", "f", none, ⟨"x", "b"⟩⟩ emptyFailures
          (.raises .notImplemented)).trace = 3
    ∧ sandboxCount
        (wrapperCall (V := Nat) ⟨defaultAllowImports, true, 3⟩
          (fun _ => .parsed [] "return 1" (.raisesExc "ValueError(1)"))
          ⟨"m", "f", none, ⟨"x", "b"⟩⟩ emptyFailures
          (.raises .notImplemented)).trace = 3 :=
  max_attempts_three_rounds_then_propagates ⟨defaultAllowImports, true, 3⟩
    (fun _ => .parsed [] "return 1" (.raisesExc "ValueError(1)"))
    ⟨"m", "f", none, ⟨"x", "b"⟩⟩ emptyFailures (fun _ => [])
    (fun _ => "return 1") (fun _ => .raisesExc "ValueError(1)")
    (fun _ => .classified "ValueError(1)") rfl rfl (fun _ => rfl)
    (fun _ => rfl) (fun _ => rfl)

/-! ### C2 — disallowed import is fatal, skips the sandbox -/

/-- C2: in any evolution round whose candidate parses but contains
an import with a top-level root outside the allowlist, the import check's
error propagates at once: the round performs no sandbox execution, no
further regeneration round is started for that failure, and the caller
sees the `Disallowed import` error. -/
theorem import_violation_propagates_immediately {V : Type}
    (cfg : EvolverxConfig) (rounds : Nat → RoundOutcome V)
    (func : PyFunction) (s : Failures) (err : PyErr)
    (stmts : List PyStmt) (body : String) (run : RunnerBehavior V)
    (msg : String)
    (hlt : get_failures s func.module func.name < cfg.maxAttempts)
    (hr : rounds (get_failures s func.module func.name + 1) =
      .parsed stmts body run)
    (hv : validate_imports stmts cfg.allowImports = .error msg) :
    (evolveRun cfg rounds func s err).outcome = .raised (.runtimeError msg)
    ∧ sandboxCount (evolveRun cfg rounds func s err).trace = 0
    ∧ genCount (evolveRun cfg rounds func s err).trace = 1 := by
  rw [evolveRun, evolve_import_reject cfg.maxAttempts cfg rounds func s err
    stmts body run msg (by omega) hr hv]
  refine ⟨rfl, ?_, ?_⟩ <;>
    simp [genCount, sandboxCount, List.countP_cons, List.countP_nil]

/-- Witness for C2 at a concrete round: a candidate importing `os` under
the default allowlist never reaches the sandbox and surfaces the
violation. -/
theorem import_violation_propagates_immediately_witness :
    (evolveRun (V := Nat) ⟨defaultAllowImports, true, 3⟩
        (fun _ => .parsed [PyStmt.imp ["os"]] "return 1" (.returns 7))
        ⟨"m", "f", none, ⟨"x", "b"⟩⟩ emptyFailures .notImplemented).outcome =
        .raised (.runtimeError "Disallowed import: os")
    ∧ sandboxCount
        (evolveRun (V := Nat) ⟨defaultAllowImports, true, 3⟩
          (fun _ => .parsed [PyStmt.imp ["os"]] "return 1" (.returns 7))
          ⟨"m", "f", none, ⟨"x", "b"⟩⟩ emptyFailures .notImplemented).trace = 0
    ∧ genCount
        (evolveRun (V := Nat) ⟨defaultAllowImports, true, 3⟩
          (fun _ => .parsed [PyStmt.imp ["os"]] "return 1" (.returns 7))
          ⟨"m", "f", none, ⟨"x", "b"⟩⟩ emptyFailures .notImplemented).trace = 1 :=
  import_violation_propagates_immediately ⟨defaultAllowImports, true, 3⟩
    (fun _ => .parsed [PyStmt.imp ["os"]] "return 1" (.returns 7))
    ⟨"m", "f", none, ⟨"x", "b"⟩⟩ emptyFailures .notImplemented
    [PyStmt.imp ["os"]] "return 1" (.returns 7) "Disallowed import: os"
    (by decide) rfl rfl

/-! ### C3 — the surfaced error on budget exhaustion -/

/-- C3 counterexample: a wrapped call triggered by `NotImplementedError`
whose three candidates all fail inside the sandbox surfaces a
`SandboxError` — the sandbox's internal classification type — to the
original caller, not a failure of the kind the caller would have seen
without the system. -/
theorem budget_exhausted_leaks_sandbox_error :
    (wrapperCall (V := Nat) ⟨["json"], true, 3⟩
        (fun _ => .parsed [] "return 1" (.raisesExc "HTTPError(404)"))
        ⟨"app", "fetch", none, ⟨"url", "b"⟩⟩ emptyFailures
        (.raises .notImplemented)).outcome =
        .raised (.sandboxError (.classified "HTTPError(404)"))
    ∧ (PyErr.sandboxError (.classified "HTTPError(404)")).isSandboxErr =
        true := by
  constructor
  · rfl
  · rfl

/-- C3 amended: when the attempt budget is exhausted the wrapper
re-raises the most recent triggering error; when the final failure
happened inside the sandbox that error is the sandbox executor's own
`SandboxError` classification, so a sandbox-specific error type does
reach the original caller. -/
theorem budget_exhausted_surfaces_most_recent_error {V : Type}
    (cfg : EvolverxConfig) (rounds : Nat → RoundOutcome V)
    (func : PyFunction) (s : Failures) (stmts : Nat → List PyStmt)
    (body : Nat → String) (run : Nat → RunnerBehavior V)
    (se : Nat → SandboxError) (hmax : 1 ≤ cfg.maxAttempts)
    (h0 : get_failures s func.module func.name = 0)
    (hr : ∀ i, rounds i = .parsed (stmts i) (body i) (run i))
    (hv : ∀ i, validate_imports (stmts i) cfg.allowImports = .ok ())
    (he : ∀ i, exec_in_sandbox (run i) = .error (se i)) :
    (wrapperCall cfg rounds func s (.raises .notImplemented)).outcome =
        .raised (.sandboxError (se cfg.maxAttempts))
    ∧ (PyErr.sandboxError (se cfg.maxAttempts)).isSandboxErr = true := by
  have h := evolve_all_fail cfg rounds func stmts body run se hr hv he
    (cfg.maxAttempts + 1) s .notImplemented (by omega) (by omega)
  simp only [wrapperCall, evolveRun]
  exact ⟨h.1, rfl⟩

/-- Witness for the amended C3 statement: the second round's sandbox
error is the one surfaced when `max_attempts = 2`. -/
theorem budget_exhausted_surfaces_most_recent_error_witness :
    (wrapperCall (V := Nat) ⟨[], false, 2⟩
        (fun i => .parsed [] "return 1"
          (.raisesExc (String.append "e" (toString i))))
        ⟨"m", "f", none, ⟨"x", "b"⟩⟩ emptyFailures
        (.raises .notImplemented)).outcome =
        .raised (.sandboxError (.classified "e2"))
    ∧ (PyErr.sandboxError (.classified "e2")).isSandboxErr = true :=
  budget_exhausted_surfaces_most_recent_error ⟨[], false, 2⟩
    (fun i => .parsed [] "return 1"
      (.raisesExc (String.append "e" (toString i))))
    ⟨"m", "f", none, ⟨"x", "b"⟩⟩ emptyFailures (fun _ => [])
    (fun _ => "return 1")
    (fun i => .raisesExc (String.append "e" (toString i)))
    (fun i => .classified (String.append "e" (toString i)))
    (by decide) rfl (fun _ => rfl) (fun _ => rfl) (fun _ => rfl)

/-! ### C5 — import matching on top-level roots -/

/-- C5 counterexample: with the default allowlist (which contains `json`),
the from-style import `from json import dumps` is rejected by
`_validate_imports` with `Disallowed import: dumps`, although the claim
asserts that an import of a member of an allowed root passes the check. -/
theorem validate_imports_rejects_from_member :
    validate_imports [PyStmt.impFrom (some "json") ["dumps"]]
        defaultAllowImports = Except.error "Disallowed import: dumps"
    ∧ defaultAllowImports.contains "json" = true := by
  constructor
  · rfl
  · rfl

/-- C5 amended: the import check inspects both plain imports and
from-style imports; a plain (or submodule) import is matched on the
top-level root of each imported module name, and a from-style import is
matched on the top-level root of its source module and additionally on
the top-level root of every imported name, so the check succeeds exactly
when all of those roots are allowlisted.  Consequently `import
json.decoder` passes under the default allowlist, but `from json import
dumps` is rejected because `dumps` itself is not an allowed root. -/
theorem validate_imports_root_characterisation :
    (∀ (stmts : List PyStmt) (allow : List String),
        validate_imports stmts allow = .ok () ↔
          ∀ st ∈ stmts, ∀ m ∈ modsOf st, m ∈ allow)
    ∧ validate_imports [PyStmt.imp ["json.decoder"]] defaultAllowImports =
        Except.ok ()
    ∧ validate_imports [PyStmt.impFrom (some "json") ["dumps"]]
        defaultAllowImports = Except.error "Disallowed import: dumps" := by
  exact ⟨validate_imports_ok_iff, rfl, rfl⟩

/-- Witness for the amended C5 statement at a concrete candidate: the
characterisation applied to a plain submodule import of an allowed
root. -/
theorem validate_imports_root_characterisation_witness :
    validate_imports [PyStmt.imp ["json.decoder"]] defaultAllowImports =
      Except.ok () :=
  validate_imports_root_characterisation.2.1

/-! ### C6 — attempt counter lifecycle -/

/-- C6: for every function identity the consecutive-failure count is zero
in a fresh table and zero immediately after the reset performed by the
Committing transition; `record_failure` returns and stores exactly the
previous count plus one and never decreases any counter, so within a
failure streak (a run of `_evolve` that ends with an exception, during
which only `record_failure` touches the table) the count only increases,
and it is set to zero by the evolution loop only on the path that installs
a fully accepted candidate. -/
theorem attempt_counter_lifecycle :
    (∀ m f, get_failures emptyFailures m f = 0)
    ∧ (∀ s m f, get_failures (reset_failures s m f) m f = 0)
    ∧ (∀ s m f, (record_failure s m f).2 = get_failures s m f + 1
        ∧ get_failures (record_failure s m f).1 m f =
          get_failures s m f + 1)
    ∧ (∀ s m f m' f', get_failures s m' f' ≤
        get_failures (record_failure s m f).1 m' f')
    ∧ (∀ (V : Type) (fuel : Nat) (cfg : EvolverxConfig)
        (rounds : Nat → RoundOutcome V) (func : PyFunction) (s : Failures)
        (err e : PyErr),
        (evolve fuel cfg rounds func s err).outcome = .raised e →
        get_failures s func.module func.name ≤
          get_failures (evolve fuel cfg rounds func s err).failures
            func.module func.name)
    ∧ (∀ (V : Type) (cfg : EvolverxConfig) (rounds : Nat → RoundOutcome V)
        (func : PyFunction) (s : Failures) (err : PyErr)
        (stmts : List PyStmt) (body : String) (run : RunnerBehavior V)
        (v : V),
        ¬ cfg.maxAttempts < get_failures s func.module func.name + 1 →
        rounds (get_failures s func.module func.name + 1) =
          .parsed stmts body run →
        validate_imports stmts cfg.allowImports = .ok () →
        exec_in_sandbox run = .ok v →
        get_failures (evolveRun cfg rounds func s err).failures
          func.module func.name = 0) := by
  refine ⟨fun m f => rfl, ?_, ?_, ?_, ?_, ?_⟩
  · intro s m f
    simp [get_failures, reset_failures, setCount]
  · intro s m f
    constructor
    · rfl
    · simp [record_failure, get_failures, setCount]
  · intro s m f m' f'
    simpa [record_failure] using
      get_failures_le_setCount_incr s m f m' f'
  · intro V fuel cfg rounds func s err e h
    exact evolve_raised_failures_mono fuel cfg rounds func s err
      func.module func.name e h
  · intro V cfg rounds func s err stmts body run v hb hr hv he
    rw [evolveRun, evolve_commit cfg.maxAttempts cfg rounds func s err
      stmts body run v hb hr hv he]
    simp [get_failures, reset_failures, setCount]

/-- Witness for C6's Committing clause at a concrete accepted candidate:
the counter for the identity is zero after the commit. -/
theorem attempt_counter_lifecycle_witness :
    get_failures
      (evolveRun (V := Nat) ⟨defaultAllowImports, true, 3⟩
        (fun _ => .parsed [] "return 1" (.returns 7))
        ⟨"m", "f", none, ⟨"x", "b"⟩⟩ emptyFailures
        .notImplemented).failures "m" "f" = 0 :=
  attempt_counter_lifecycle.2.2.2.2.2 Nat ⟨defaultAllowImports, true, 3⟩
    (fun _ => .parsed [] "return 1" (.returns 7))
    ⟨"m", "f", none, ⟨"x", "b"⟩⟩ emptyFailures .notImplemented
    [] "return 1" (.returns 7) 7 (by decide) rfl rfl rfl

/-! ### C10 — commit installs only executable behaviour -/

/-- C10: on every Committing transition the accepted candidate replaces
only the wrapped function's executable behaviour: the function object
afterwards has the same name, module, docstring and parameter list as
before the round, its code body is the accepted candidate's body, and the
value returned to the original caller is exactly the one produced during
the sandbox execution. -/
theorem commit_replaces_only_executable_behaviour {V : Type}
    (cfg : EvolverxConfig) (rounds : Nat → RoundOutcome V)
    (func : PyFunction) (s : Failures) (err : PyErr)
    (stmts : List PyStmt) (body : String) (run : RunnerBehavior V) (v : V)
    (hb : ¬ cfg.maxAttempts < get_failures s func.module func.name + 1)
    (hr : rounds (get_failures s func.module func.name + 1) =
      .parsed stmts body run)
    (hv : validate_imports stmts cfg.allowImports = .ok ())
    (he : exec_in_sandbox run = .ok v) :
    (evolveRun cfg rounds func s err).outcome = .ok v
    ∧ (evolveRun cfg rounds func s err).func.name = func.name
    ∧ (evolveRun cfg rounds func s err).func.module = func.module
    ∧ (evolveRun cfg rounds func s err).func.doc = func.doc
    ∧ (evolveRun cfg rounds func s err).func.code.params = func.code.params
    ∧ (evolveRun cfg rounds func s err).func.code.body = body := by
  rw [evolveRun, evolve_commit cfg.maxAttempts cfg rounds func s err
    stmts body run v hb hr hv he]
  exact ⟨rfl, rfl, rfl, rfl, rfl, rfl⟩

/-- Witness for C10 at a concrete accepted candidate. -/
theorem commit_replaces_only_executable_behaviour_witness :
    (evolveRun (V := Nat) ⟨defaultAllowImports, true, 3⟩
        (fun _ => .parsed [] "return 1" (.returns 7))
        ⟨"m", "f", some "docstring", ⟨"x, y", "b"⟩⟩ emptyFailures
        .notImplemented).outcome = .ok 7
    ∧ (evolveRun (V := Nat) ⟨defaultAllowImports, true, 3⟩
        (fun _ => .parsed [] "return 1" (.returns 7))
        ⟨"m", "f", some "docstring", ⟨"x, y", "b"⟩⟩ emptyFailures
        .notImplemented).func.name = "f"
    ∧ (evolveRun (V := Nat) ⟨defaultAllowImports, true, 3⟩
        (fun _ => .parsed [] "return 1" (.returns 7))
        ⟨"m", "f", some "docstring", ⟨"x, y", "b"⟩⟩ emptyFailures
        .notImplemented).func.module = "m"
    ∧ (evolveRun (V := Nat) ⟨defaultAllowImports, true, 3⟩
        (fun _ => .parsed [] "return 1" (.returns 7))
        ⟨"m", "f", some "docstring", ⟨"x, y", "b"⟩⟩ emptyFailures
        .notImplemented).func.doc = some "docstring"
    ∧ (evolveRun (V := Nat) ⟨defaultAllowImports, true, 3⟩
        (fun _ => .parsed [] "return 1" (.returns 7))
        ⟨"m", "f", some "docstring", ⟨"x, y", "b"⟩⟩ emptyFailures
        .notImplemented).func.code.params = "x, y"
    ∧ (evolveRun (V := Nat) ⟨defaultAllowImports, true, 3⟩
        (fun _ => .parsed [] "return 1" (.returns 7))
        ⟨"m", "f", some "docstring", ⟨"x, y", "b"⟩⟩ emptyFailures
        .notImplemented).func.code.body = "return 1" :=
  commit_replaces_only_executable_behaviour ⟨defaultAllowImports, true, 3⟩
    (fun _ => .parsed [] "return 1" (.returns 7))
    ⟨"m", "f", some "docstring", ⟨"x, y", "b"⟩⟩ emptyFailures
    .notImplemented [] "return 1" (.returns 7) 7 (by decide) rfl rfl rfl

/-! ### Persistence helper lemmas -/

theorem applyWrites_lastWrite :
    ∀ (ws : List (FsPath × String)) (fs : FS) (p : FsPath),
      applyWrites ws fs p =
        (match lastWrite ws p with
         | some c => some c
         | none => fs p) := by
  intro ws
  induction ws with
  | nil => intro fs p; rfl
  | cons w rest ih =>
      intro fs p
      obtain ⟨q, c⟩ := w
      cases hl : lastWrite rest p with
      | some c' => simp [applyWrites, ih, hl, lastWrite]
      | none =>
          by_cases hpq : p = q
          · subst hpq
            simp [applyWrites, ih, hl, lastWrite]
          · simp [applyWrites, ih, hl, lastWrite, hpq]

theorem lastWrite_eq_none (ws : List (FsPath × String)) (p : FsPath)
    (h : ∀ w ∈ ws, p ≠ w.1) : lastWrite ws p = none := by
  induction ws with
  | nil => rfl
  | cons w rest ih =>
      have h1 : p ≠ w.1 := h w (by simp)
      have h2 : lastWrite rest p = none :=
        ih fun w' hw' => h w' (List.mem_cons_of_mem _ hw')
      obtain ⟨q, c⟩ := w
      simp only [lastWrite, h2]
      simp at h1
      simp [h1]

theorem singleton_ne_two_components (base : List String) (x d y : String) :
    base ++ [x] ≠ base ++ [d, y] := by
  intro h
  have := congrArg List.length h
  simp at this

/-! ### C7 — load after save round-trips the candidate source -/

/-- C7: for every identity and candidate source, reading the cache file
back after `write_cache` yields exactly the saved candidate text: the
artifact writes that follow the candidate write (snapshot, diff,
markdown, html, metadata) all target other paths, so the candidate file
content is untouched. -/
theorem load_after_save_roundtrip (R : DiffRenderers)
    (module func fn_src : String) (base : FsPath)
    (original_src : Option String) (ts : String) (fs : FS) :
    load_from_cache module func base
      (write_cache R module func fn_src base original_src ts fs) =
      some fn_src := by
  rw [load_from_cache, write_cache, applyWrites_lastWrite]
  have hnone :
      lastWrite
        (cacheWrites R module func fn_src base original_src ts).tail
        (cache_path module func base) = none := by
    apply lastWrite_eq_none
    intro w hw
    cases original_src with
    | none => simp [cacheWrites] at hw
    | some orig =>
        simp only [cacheWrites, List.tail_cons] at hw
        rcases List.mem_append.mp hw with hw' | hw'
        · rcases List.mem_append.mp hw' with hw'' | hw''
          · simp only [List.mem_cons, List.mem_singleton] at hw''
            rcases hw'' with rfl | rfl | rfl | h0
            · exact singleton_ne_two_components base _ _ _
            · exact singleton_ne_two_components base _ _ _
            · exact singleton_ne_two_components base _ _ _
            · cases h0
          · cases hh : R.htmlDiff (linesOf orig)
              (extract_decorator_block orig ++ linesOf fn_src) module func with
            | none => rw [hh] at hw''; cases hw''
            | some html =>
                rw [hh] at hw''
                simp only [List.mem_singleton] at hw''
                subst hw''
                exact singleton_ne_two_components base _ _ _
        · simp only [List.mem_singleton] at hw'
          subst hw'
          exact singleton_ne_two_components base _ _ _
  have hcons :
      cacheWrites R module func fn_src base original_src ts =
        (cache_path module func base, fn_src) ::
          (cacheWrites R module func fn_src base original_src ts).tail := by
    cases original_src <;> rfl
  rw [hcons]
  simp [lastWrite, hnone]

/-! ### C8 — idempotence of a repeated save -/

/-- C8 counterexample: saving the same candidate and snapshot twice with
the two wall-clock timestamps the two saves read produces a markdown diff
artifact whose content differs between the saves, because `write_cache`
embeds the generation timestamp in it — so the second save's artifact
content is not identical to the first's. -/
theorem double_save_markdown_differs :
    (write_cache ⟨fun _ _ _ _ _ => "", fun _ _ _ _ => none, fun _ => ""⟩
        "m" "f" "s" [] (some "o") "2024-01-01T00:00:01Z"
        (write_cache ⟨fun _ _ _ _ _ => "", fun _ _ _ _ => none, fun _ => ""⟩
          "m" "f" "s" [] (some "o") "2024-01-01T00:00:00Z"
          (fun _ => none)))
      (diff_md_path "m" "f" []) ≠
    (write_cache ⟨fun _ _ _ _ _ => "", fun _ _ _ _ => none, fun _ => ""⟩
        "m" "f" "s" [] (some "o") "2024-01-01T00:00:00Z" (fun _ => none))
      (diff_md_path "m" "f" []) := by
  decide

/-- C8 amended: a repeated save is idempotent only up to the embedded
generation timestamp: saving the same candidate and snapshot again with
the same timestamp (and the same diff renderers) overwrites every
artifact with identical content, leaving the file system unchanged; the
diff, markdown and metadata artifacts embed the timestamp, so saves at
different instants differ exactly there. -/
theorem save_idempotent_at_fixed_timestamp (R : DiffRenderers)
    (module func fn_src : String) (base : FsPath)
    (original_src : Option String) (ts : String) (fs : FS) :
    write_cache R module func fn_src base original_src ts
      (write_cache R module func fn_src base original_src ts fs) =
      write_cache R module func fn_src base original_src ts fs := by
  funext p
  simp only [write_cache]
  cases hl : lastWrite (cacheWrites R module func fn_src base original_src ts) p with
  | some c => simp [applyWrites_lastWrite, hl]
  | none => simp [applyWrites_lastWrite, hl]

/-! ### C9 — identity-to-filename mapping -/

/-- C9 counterexample: the mapping is not collision-free on all distinct
identities: the namespaces `a.b` and `a_b` are distinct, yet after the
dot-to-underscore substitution both identities produce the cache file
`a_b__f.py`. -/
theorem cache_path_collision :
    cache_path "a.b" "f" ["cache"] = cache_path "a_b" "f" ["cache"]
    ∧ ("a.b", "f") ≠ (("a_b", "f") : String × String) := by
  constructor
  · rfl
  · decide

theorem takeWhile_dropWhile_of_marker (p : Char → Bool) :
    ∀ (u : List Char) (x : Char) (v : List Char),
      (∀ c ∈ u, p c = true) → p x = false →
      (u ++ x :: v).takeWhile p = u ∧ (u ++ x :: v).dropWhile p = x :: v := by
  intro u
  induction u with
  | nil =>
      intro x v _ hx
      simp [List.takeWhile_cons, List.dropWhile_cons, hx]
  | cons c rest ih =>
      intro x v hu hx
      have hc : p c = true := hu c (by simp)
      have := ih x v (fun c' hc' => hu c' (List.mem_cons_of_mem _ hc')) hx
      simp [List.takeWhile_cons, List.dropWhile_cons, hc, this]

theorem append_marker_inj {a f a' f' : List Char}
    (hf : ∀ c ∈ f, c ≠ '_') (hf' : ∀ c ∈ f', c ≠ '_')
    (h : a ++ '_' :: f = a' ++ '_' :: f') : a = a' ∧ f = f' := by
  have hrev := congrArg List.reverse h
  simp only [List.reverse_append, List.reverse_cons, List.append_assoc,
    List.singleton_append] at hrev
  have hp : ∀ (l : List Char), (∀ c ∈ l, c ≠ '_') →
      ∀ c ∈ l.reverse, (fun c => !(c == '_')) c = true := by
    intro l hl c hc
    have := hl c (List.mem_reverse.mp hc)
    simpa using this
  have h1 := takeWhile_dropWhile_of_marker (fun c => !(c == '_'))
    f.reverse '_' a.reverse (hp f hf) (by simp)
  have h2 := takeWhile_dropWhile_of_marker (fun c => !(c == '_'))
    f'.reverse '_' a'.reverse (hp f' hf') (by simp)
  rw [hrev] at h1
  have hfrev : f.reverse = f'.reverse := h1.1.symm.trans h2.1
  have harev : ('_' :: a.reverse : List Char) = '_' :: a'.reverse :=
    h1.2.symm.trans h2.2
  refine ⟨?_, ?_⟩
  · have : a.reverse = a'.reverse := by injection harev
    simpa using congrArg List.reverse this
  · simpa using congrArg List.reverse hfrev

theorem map_dotToUnderscore_inj :
    ∀ {l l' : List Char}, (∀ c ∈ l, c ≠ '_') → (∀ c ∈ l', c ≠ '_') →
      l.map dotToUnderscore = l'.map dotToUnderscore → l = l' := by
  intro l
  induction l with
  | nil =>
      intro l' _ _ h
      cases l' with
      | nil => rfl
      | cons c' rest' => simp at h
  | cons c rest ih =>
      intro l' hl hl' h
      cases l' with
      | nil => simp at h
      | cons c' rest' =>
          simp only [List.map_cons, List.cons.injEq] at h
          have h1 : c ≠ '_' := hl c (by simp)
          have h2 : c' ≠ '_' := hl' c' (by simp)
          have hc : c = c' := by
            have hd := h.1
            by_cases hcd : c = '.' <;> by_cases hcd' : c' = '.' <;>
              simp only [dotToUnderscore, hcd, hcd', if_true, if_false,
                if_pos, if_neg, reduceIte] at hd
            · rw [hcd, hcd']
            · exact absurd hd.symm h2
            · exact absurd hd h1
            · exact hd
          subst hc
          have := ih (fun c'' hc'' => hl c'' (List.mem_cons_of_mem _ hc''))
            (fun c'' hc'' => hl' c'' (List.mem_cons_of_mem _ hc'')) h.2
          rw [this]

/-- C9 amended: the identity-to-filename mapping is deterministic, but
collision-free only on identities whose namespace and function name
contain no underscore of their own (the counterexample namespaces `a.b`
and `a_b` collide): on underscore-free identities, equal cache paths
force equal identities. -/
theorem cache_path_injective_on_underscore_free (m1 f1 m2 f2 : String)
    (base : FsPath) (h1 : noUnderscore m1 = true)
    (h2 : noUnderscore f1 = true) (h3 : noUnderscore m2 = true)
    (h4 : noUnderscore f2 = true)
    (h : cache_path m1 f1 base = cache_path m2 f2 base) :
    m1 = m2 ∧ f1 = f2 := by
  have hnu : ∀ (s : String), noUnderscore s = true → ∀ c ∈ s.data, c ≠ '_' := by
    intro s hs c hc
    have := List.all_eq_true.mp hs c hc
    simpa using this
  have hfn : cacheFileName m1 f1 = cacheFileName m2 f2 := by
    have := List.append_cancel_left h
    simpa using this
  have hdata := congrArg String.data hfn
  simp only [cacheFileName] at hdata
  have hshape : ∀ (sd fD : List Char),
      sd ++ ('_' :: '_' :: fD) ++ ['.', 'p', 'y'] =
        (sd ++ ['_']) ++ '_' :: (fD ++ ['.', 'p', 'y']) := by
    intro sd fD
    simp
  rw [hshape, hshape] at hdata
  have hftail : ∀ (s : String), noUnderscore s = true →
      ∀ c ∈ s.data ++ ['.', 'p', 'y'], c ≠ '_' := by
    intro s hs c hc
    rcases List.mem_append.mp hc with hc' | hc'
    · exact hnu s hs c hc'
    · simp only [List.mem_cons, List.not_mem_nil, or_false] at hc'
      rcases hc' with rfl | rfl | rfl <;> decide
  obtain ⟨ha, hf⟩ := append_marker_inj (hftail f1 h2) (hftail f2 h4) hdata
  have hsd : (safe_module m1).data = (safe_module m2).data :=
    List.append_cancel_right ha
  have hfd : f1.data = f2.data := List.append_cancel_right hf
  constructor
  · have := map_dotToUnderscore_inj (hnu m1 h1) (hnu m2 h3) hsd
    cases m1
    cases m2
    exact congrArg String.mk this
  · cases f1
    cases f2
    exact congrArg String.mk hfd

/-- Witness for the amended C9 statement: applied to a concrete pair of
equal underscore-free identities. -/
theorem cache_path_injective_on_underscore_free_witness :
    ("app.web" : String) = "app.web" ∧ ("fetch" : String) = "fetch" :=
  cache_path_injective_on_underscore_free "app.web" "fetch" "app.web"
    "fetch" ["cache"] (by decide) (by decide) (by decide) (by decide) rfl

end Evolverx
